import Mathlib

/-!
Shallow embedding of `src/bot.py`, a Telegram bot that collects a route
(start city, optional midpoints, end city) and a forecast length through a
linear per-conversation dialogue, queries a weather provider per city and
replies with a formatted multi-day forecast.

Modelling choices, all noted at the definition they concern:
* the two HTTP endpoints of the weather provider become an oracle
  `Provider` giving, per request, the status code and well-formed parsed body;
* the Python functions `str.strip` / `str.split` are embedded as character-list
  functions `pyStrip` / `pySplit` so that they compute in the kernel;
  `pyStrip` trims the whitespace characters `Char.isWhitespace` covers;
* JSON numbers (temperature values) are carried by their decimal rendering,
  since the program only ever interpolates them into strings.
-/

namespace WeatherBot

/-- The dialogue states. `WeatherFlow` in `bot.py` declares four named
states; `idle` stands for the absence of a set FSM state (before `/weather`
and after `state.clear()`). -/
inductive FlowState
  | idle
  | input_start
  | input_end
  | input_midpoints
  | choose_forecast
deriving DecidableEq, Repr

/-- Per-conversation FSM storage: the current state plus the accumulated
`state.update_data` keys; `none` means the key is absent from storage. -/
structure Session where
  flow : FlowState
  start_city : Option String
  end_city : Option String
  midpoints : Option (List String)
  days : Option Nat
deriving DecidableEq, Repr

/-- The storage of a fresh conversation, and what `state.clear()` leaves. -/
def Session.init : Session := ⟨.idle, none, none, none, none⟩

/-- Inbound updates the dispatcher routes to the handlers the claims cover:
the `/weather` command, a plain text message, and a callback (inline-button
press) carrying its callback data. -/
inductive Input
  | cmdWeather
  | text (s : String)
  | callback (d : String)

/-- Python `text.split(sep)` for a one-character separator, on the
character list: every maximal separator-free run, in order, including
empty runs (so the empty input yields `[[]]`, like Python). -/
def pySplitAux (sep : Char) : List Char → List Char → List (List Char)
  | [], acc => [acc.reverse]
  | c :: cs, acc =>
    if c = sep then acc.reverse :: pySplitAux sep cs []
    else pySplitAux sep cs (c :: acc)

def pySplit (sep : Char) (cs : List Char) : List (List Char) :=
  pySplitAux sep cs []

/-- Python `str.strip()`: drop leading and trailing whitespace. -/
def pyStrip (cs : List Char) : List Char :=
  ((cs.dropWhile Char.isWhitespace).reverse.dropWhile Char.isWhitespace).reverse

/-- `handle_midpoints`, line 128:
`[city.strip() for city in message.text.split(",") if city.strip()]`. -/
def parseMidpoints (s : String) : List String :=
  ((pySplit ',' s.data).map (fun cs => String.mk (pyStrip cs))).filter
    (fun t => t ≠ "")

/-- One parsed entry of the provider `"DailyForecasts"` array, with the
fields `generate_forecast` reads. The two temperature `Value` numbers are
carried by their decimal rendering (the program only interpolates them). -/
structure RawDay where
  date : String       -- `"Date"`, a combined date-time string
  tempMin : String    -- `Temperature.Minimum.Value`
  tempMax : String    -- `Temperature.Maximum.Value`
  iconPhrase : String -- `Day.IconPhrase`
deriving DecidableEq, Repr

/-- The weather provider boundary: per request, the HTTP status and the
well-formed parsed body. `locStatus`/`locResults` describe the city-search
endpoint, the candidate list carried by the `"Key"` of each candidate;
`fcStatus`/`fcData` the 5-day daily-forecast endpoint, the
`"DailyForecasts"` array of the body (a body without that key is the empty list,
matching `data.get("DailyForecasts", [])`). -/
structure Provider where
  locStatus : String → Nat
  locResults : String → List String
  fcStatus : String → Nat
  fcData : String → List RawDay

/-- `fetch_location_key`, lines 30–39: `None` on a non-200 status;
otherwise `data[0]["Key"] if data else None`. -/
def fetch_location_key (p : Provider) (city : String) : Option String :=
  if p.locStatus city ≠ 200 then none
  else
    match p.locResults city with
    | [] => none
    | k :: _ => some k

/-- `fetch_weather_forecast`, lines 41–50: `[]` on a non-200 status;
otherwise the `"DailyForecasts"` array. -/
def fetch_weather_forecast (p : Provider) (key : String) : List RawDay :=
  if p.fcStatus key ≠ 200 then [] else p.fcData key

/-- The truncation at the call site, line 61:
`forecast_data = forecast_data[:days]`. -/
def truncatedForecast (p : Provider) (key : String) (days : Nat) : List RawDay :=
  (fetch_weather_forecast p key).take days

/-- One rendered day of a city forecast, as `generate_forecast` builds it. -/
structure DayForecast where
  date : String
  temperature : String
  conditions : String
deriving DecidableEq, Repr

/-- The per-entry mapping inside `generate_forecast`, lines 63–70:
`entry["Date"].split("T")[0]`, the interpolated temperature range, and
`entry["Day"]["IconPhrase"]`. -/
def parseEntry (e : RawDay) : DayForecast :=
  ⟨String.mk ((pySplit 'T' e.date.data).headD []),
   e.tempMin ++ " - " ++ e.tempMax ++ " °C",
   e.iconPhrase⟩

/-- A per-city result: the `"Нет данных"` marker or the rendered entry list. -/
inductive Forecast
  | noData
  | entries (l : List DayForecast)
deriving DecidableEq, Repr

structure CityForecast where
  location : String
  forecast : Forecast
deriving DecidableEq, Repr

/-- The loop body of `generate_forecast` for one city, lines 54–71. The Python
test `if not loc_key` is truthy both for `None` and for an empty-string key, so
both yield the no-data marker. -/
def cityResult (p : Provider) (days : Nat) (city : String) : CityForecast :=
  match fetch_location_key p city with
  | none => ⟨city, .noData⟩
  | some k =>
    if k = "" then ⟨city, .noData⟩
    else ⟨city, .entries ((truncatedForecast p k days).map parseEntry)⟩

/-- `generate_forecast`, lines 52–72: one result per city, in order. -/
def generate_forecast (p : Provider) (cities : List String) (days : Nat) :
    List CityForecast :=
  cities.map (cityResult p days)

/-- One forecast line of `format_forecast`, line 82. -/
def formatDay (d : DayForecast) : String :=
  d.date ++ ": " ++ d.temperature ++ ", " ++ d.conditions ++ "\n"

/-- The per-city block of `format_forecast`, lines 77–83. -/
def formatCity (c : CityForecast) : String :=
  "Прогноз погоды для " ++ c.location ++ ":\n" ++
    (match c.forecast with
     | .noData => " Данные недоступны для этого города🛑.\n\n"
     | .entries l => String.join (l.map formatDay)) ++ "\n"

/-- `format_forecast`, lines 74–84. -/
def format_forecast (l : List CityForecast) : String :=
  String.join (l.map formatCity)

/-- The generic failure notice of `forecast_days_selected`, line 152. -/
def errReply : String := "Произошла ошибка. Пожалуйста, попробуйте позже."

/-- One dispatcher step: how an inbound update changes the session state
and stored data, following the `@dp.message` / `@dp.callback_query`
handlers; an update with no matching handler leaves the session unchanged.
`/weather` (lines 94–97) has no state filter, so it fires from any state.
The `choose_forecast` callback (lines 139–154) reads
`user_data["start_city"]` / `["end_city"]` before its `try` block, so a
missing key raises out of the handler and `state.clear()` is not reached:
that (unreachable along valid flows) case leaves the session unchanged. -/
def step (s : Session) : Input → Session
  | .cmdWeather => { s with flow := .input_start }
  | .text t =>
    match s.flow with
    | .input_start => { s with start_city := some t, flow := .input_end }
    | .input_end => { s with end_city := some t, flow := .input_midpoints }
    | .input_midpoints =>
      { s with midpoints := some (parseMidpoints t), flow := .choose_forecast }
    | _ => s
  | .callback d =>
    match s.flow with
    | .input_midpoints =>
      if d = "add_midpoints" then s
      else if d = "skip_midpoints" then
        { s with midpoints := some [], flow := .choose_forecast }
      else s
    | .choose_forecast =>
      if d = "3_days" ∨ d = "5_days" then
        match s.start_city, s.end_city with
        | some _, some _ => Session.init
        | _, _ => s
      else s
    | _ => s

/-- The observable effects of `forecast_days_selected` on one press. -/
structure SelectOutcome where
  days : Nat
  cities : List String
  reply : String
  session : Session
deriving Repr

/-- `forecast_days_selected`, lines 139–154, for a callback already matched
by the dispatch filter `call.data in {"3_days", "5_days"}`: sets `days`,
reads `start_city`/`end_city` (a missing key raises before the `try`, so the
handler produces no outcome: `none`), builds the route with
`user_data.get("midpoints", [])`, and — `ok = false` standing for an
exception escaping `generate_forecast`/`format_forecast`, answered by the
generic failure notice — replies and clears the session either way. -/
def forecast_days_selected (p : Provider) (ok : Bool) (s : Session)
    (d : String) : Option SelectOutcome :=
  let days := if d = "3_days" then 3 else 5
  match s.start_city, s.end_city with
  | some a, some b =>
    let cities := [a] ++ s.midpoints.getD [] ++ [b]
    some
      { days := days
        cities := cities
        reply :=
          if ok then format_forecast (generate_forecast p cities days)
          else errReply
        session := Session.init }
  | _, _ => none

/-- The states a session passes through: the state before any input, then
the state after each input in turn. -/
def trace (s : Session) : List Input → List FlowState
  | [] => [s.flow]
  | i :: is => s.flow :: trace (step s i) is

/-- Collapse consecutive duplicates: a handler that leaves the state in
place (the "add midpoints" prompt, lines 114–117) is not a new visit. -/
def collapse : List FlowState → List FlowState
  | [] => []
  | [a] => [a]
  | a :: b :: rest =>
    if a = b then collapse (b :: rest) else a :: collapse (b :: rest)

/-- The three ways the midpoints step of a complete flow can go: press
"Пропустить", type the comma-separated list directly, or press
"Добавить промежуточные точки" and then type the list. -/
inductive MidStep
  | skipMid
  | direct (s : String)
  | addThen (s : String)

def midInputs : MidStep → List Input
  | .skipMid => [.callback "skip_midpoints"]
  | .direct s => [.text s]
  | .addThen s => [.callback "add_midpoints", .text s]

/-- A complete valid flow: `/weather`, the start city, the end city, the
midpoints step, and a forecast-length choice `d`. -/
def validInputs (c1 c2 : String) (m : MidStep) (d : String) : List Input :=
  [.cmdWeather, .text c1, .text c2] ++ midInputs m ++ [.callback d]

/-- A throwaway provider for concrete instances: every request succeeds but
the search returns no candidates. -/
def emptyProvider : Provider :=
  ⟨fun _ => 200, fun _ => [], fun _ => 200, fun _ => []⟩

def day1 : RawDay := ⟨"2026-10-12T07:00:00+03:00", "5", "12", "Солнечно"⟩
def day2 : RawDay := ⟨"2026-10-13T07:00:00+03:00", "4", "10", "Облачно"⟩
def day3 : RawDay := ⟨"2026-10-14T07:00:00+03:00", "3", "9", "Дождь"⟩
def day4 : RawDay := ⟨"2026-10-15T07:00:00+03:00", "2", "8", "Пасмурно"⟩
def day5 : RawDay := ⟨"2026-10-16T07:00:00+03:00", "1", "7", "Снег"⟩

/-- A provider that resolves every city and answers every forecast request
with the same five days. -/
def fiveDayProvider : Provider :=
  ⟨fun _ => 200, fun _ => ["295212"], fun _ => 200,
   fun _ => [day1, day2, day3, day4, day5]⟩

/-- A provider that resolves only `"ValidCity"`. -/
def isoProvider : Provider :=
  ⟨fun _ => 200,
   fun c => if c = "ValidCity" then ["300000"] else [],
   fun _ => 200,
   fun _ => [day1, day2, day3, day4, day5]⟩

/-- A provider whose search finds two candidates for every city. -/
def twoMatchProvider : Provider :=
  ⟨fun _ => 200, fun _ => ["294021", "295212"], fun _ => 200, fun _ => []⟩

/-- A provider for which every city resolves but every forecast request
fails with status 500. -/
def fcFailProvider : Provider :=
  ⟨fun _ => 200, fun _ => ["100500"], fun _ => 500, fun _ => []⟩

/-- C1: along every valid flow — `/weather`, a start-city text, an end-city
text, an optional midpoints choice/text, a forecast-length choice — the
controller visits its states in exactly the order `idle`, `input_start`,
`input_end`, `input_midpoints`, `choose_forecast`, back to `idle`; none is
skipped or revisited out of order. -/
theorem flow_visits_states_in_order (c1 c2 : String) (m : MidStep)
    (d : String) (hd : d = "3_days" ∨ d = "5_days") :
    collapse (trace Session.init (validInputs c1 c2 m d)) =
      [.idle, .input_start, .input_end, .input_midpoints, .choose_forecast,
        .idle] := by
  rcases hd with rfl | rfl <;> cases m <;> rfl

theorem flow_visits_states_in_order_witness :
    collapse
        (trace Session.init (validInputs "Москва" "Париж" .skipMid "3_days")) =
      [.idle, .input_start, .input_end, .input_midpoints, .choose_forecast,
        .idle] :=
  flow_visits_states_in_order "Москва" "Париж" .skipMid "3_days" (Or.inl rfl)

/-- C2: at the forecast-length selection step the route handed to the
aggregator is exactly `[start_city] ++ midpoints ++ [end_city]` — order
preserved, no deduplication. -/
theorem route_is_ordered_concatenation (p : Provider) (ok : Bool)
    (s : Session) (d a b : String) (mid : List String)
    (ha : s.start_city = some a) (hb : s.end_city = some b)
    (hm : s.midpoints = some mid) :
    ∃ out, forecast_days_selected p ok s d = some out ∧
      out.cities = [a] ++ mid ++ [b] := by
  simp only [forecast_days_selected, ha, hb, hm, Option.getD_some]
  exact ⟨_, rfl, rfl⟩

theorem route_is_ordered_concatenation_witness :
    ∃ out,
      forecast_days_selected emptyProvider true
          ⟨.choose_forecast, some "A", some "B", some ["C", "D"], none⟩
          "3_days" = some out ∧
      out.cities = ["A", "C", "D", "B"] := by
  obtain ⟨out, h1, h2⟩ :=
    route_is_ordered_concatenation emptyProvider true
      ⟨.choose_forecast, some "A", some "B", some ["C", "D"], none⟩
      "3_days" "A" "B" ["C", "D"] rfl rfl rfl
  exact ⟨out, h1, h2⟩

/-- C3: a text received while awaiting midpoints stores, in order, the
comma-split tokens trimmed of whitespace with empty tokens dropped, and
advances to the forecast-length state. -/
theorem midpoints_text_split_trimmed (s : Session) (t : String)
    (h : s.flow = .input_midpoints) :
    (step s (.text t)).midpoints =
      some (((pySplit ',' t.data).map (fun cs => String.mk (pyStrip cs))).filter
        (fun x => x ≠ "")) ∧
    (step s (.text t)).flow = .choose_forecast := by
  obtain ⟨f, sc, ec, mp, dy⟩ := s
  have hf : f = .input_midpoints := h
  subst hf
  exact ⟨rfl, rfl⟩

theorem midpoints_text_split_trimmed_witness :
    (step ⟨.input_midpoints, some "Москва", some "Париж", none, none⟩
        (.text " Paris,  , London ,,")).midpoints =
      some ["Paris", "London"] := by
  have h :=
    (midpoints_text_split_trimmed
      ⟨.input_midpoints, some "Москва", some "Париж", none, none⟩
      " Paris,  , London ,," rfl).1
  rw [h]
  decide

/-- C4: for a city whose location resolves to a truthy key, the per-city
forecast is the image of the first `days` provider entries: never more than
`days` entries, and exactly `days` of them — the first, in provider order —
whenever the provider returns at least `days`. -/
theorem per_city_truncation (p : Provider) (days : Nat) (city k : String)
    (hk : fetch_location_key p city = some k) (hne : k ≠ "") :
    ∃ l, cityResult p days city = ⟨city, .entries l⟩ ∧
      l = ((fetch_weather_forecast p k).take days).map parseEntry ∧
      l.length ≤ days ∧
      (days ≤ (fetch_weather_forecast p k).length → l.length = days) := by
  refine ⟨(truncatedForecast p k days).map parseEntry, ?_, rfl, ?_, ?_⟩
  · simp [cityResult, hk, hne]
  · simp [truncatedForecast]
  · intro h
    simp [truncatedForecast]
    omega

theorem per_city_truncation_witness :
    ∃ l, cityResult fiveDayProvider 3 "Казань" = ⟨"Казань", .entries l⟩ ∧
      l.length = 3 := by
  obtain ⟨l, h1, _, _, h4⟩ :=
    per_city_truncation fiveDayProvider 3 "Казань" "295212" (by decide)
      (by decide)
  exact ⟨l, h1, h4 (by decide)⟩

/-- C5: the aggregator emits one result per city in input order; position
`i` carries a function of city `i` alone, and a city that fails to resolve
gets the no-data marker at its own position while every other position
still carries the result of its own city. -/
theorem failure_isolation (p : Provider) (cities : List String)
    (days : Nat) :
    (generate_forecast p cities days).length = cities.length ∧
    ∀ (i : Nat) (c : String), cities[i]? = some c →
      (generate_forecast p cities days)[i]? = some (cityResult p days c) ∧
      (fetch_location_key p c = none →
        (generate_forecast p cities days)[i]? =
          some (⟨c, .noData⟩ : CityForecast)) := by
  constructor
  · simp [generate_forecast]
  · intro i c hc
    have hg : (generate_forecast p cities days)[i]? =
        some (cityResult p days c) := by
      simp [generate_forecast, List.getElem?_map, hc]
    refine ⟨hg, fun hn => ?_⟩
    rw [hg]
    simp [cityResult, hn]

theorem failure_isolation_witness :
    (generate_forecast isoProvider ["ValidCity", "GarbageCity123"] 3)[1]? =
        some ⟨"GarbageCity123", .noData⟩ ∧
    (generate_forecast isoProvider ["ValidCity", "GarbageCity123"] 3)[0]? =
        some (cityResult isoProvider 3 "ValidCity") := by
  have h := failure_isolation isoProvider ["ValidCity", "GarbageCity123"] 3
  exact ⟨(h.2 1 "GarbageCity123" rfl).2 (by decide),
    (h.2 0 "ValidCity" rfl).1⟩

/-- C6: the location lookup yields not-found exactly on a non-success
status or an empty candidate list, and otherwise the key of the first
candidate — first result wins, no disambiguation. -/
theorem resolve_first_result_wins (p : Provider) (city : String) :
    (fetch_location_key p city = none ↔
      p.locStatus city ≠ 200 ∨ p.locResults city = []) ∧
    ∀ k tl, p.locStatus city = 200 → p.locResults city = k :: tl →
      fetch_location_key p city = some k := by
  constructor
  · by_cases hs : p.locStatus city = 200
    · cases hr : p.locResults city <;> simp [fetch_location_key, hs, hr]
    · simp [fetch_location_key, hs]
  · intro k tl hs hr
    simp [fetch_location_key, hs, hr]

theorem resolve_first_result_wins_witness :
    fetch_location_key twoMatchProvider "Париж" = some "294021" :=
  (resolve_first_result_wins twoMatchProvider "Париж").2 "294021" ["295212"]
    rfl rfl

/-- C7: the forecast fetch returns the empty sequence on a non-success
status — hence so does its truncation — and otherwise the truncation at the
call site keeps exactly the first `days` returned entries. -/
theorem fetch_forecast_truncates (p : Provider) (key : String)
    (days : Nat) :
    (p.fcStatus key ≠ 200 →
      fetch_weather_forecast p key = [] ∧
        truncatedForecast p key days = []) ∧
    (p.fcStatus key = 200 →
      truncatedForecast p key days = (p.fcData key).take days) := by
  constructor
  · intro h
    constructor <;> simp [fetch_weather_forecast, truncatedForecast, h]
  · intro h
    simp [truncatedForecast, fetch_weather_forecast, h]

theorem fetch_forecast_truncates_witness :
    fetch_weather_forecast fcFailProvider "100500" = [] ∧
    truncatedForecast fiveDayProvider "295212" 3 = [day1, day2, day3] := by
  refine ⟨((fetch_forecast_truncates fcFailProvider "100500" 5).1
    (by decide)).1, ?_⟩
  have h := (fetch_forecast_truncates fiveDayProvider "295212" 3).2 (by decide)
  rw [h]
  decide

/-- C8 counterexample: for a city that resolves while its forecast request
fails with status 500, the aggregator yields the empty entry list — not the
no-data marker — and the formatter renders the two differently, so the
failure is not surfaced the way a resolution failure is. -/
theorem fetch_failure_surfaced_differently :
    generate_forecast fcFailProvider ["Тверь"] 3 =
      [⟨"Тверь", .entries []⟩] ∧
    format_forecast [⟨"Тверь", .entries []⟩] ≠
      format_forecast [⟨"Тверь", .noData⟩] := by
  constructor
  · decide
  · decide

/-- C8 (amended): a forecast-fetch failure for a resolved city is recovered
locally as the empty entry list, which the formatter renders as the city
header followed by a blank line only — without the explicit
data-unavailable line that a resolution failure gets. -/
theorem fetch_failure_empty_entries (p : Provider) (city k : String)
    (days : Nat) (hk : fetch_location_key p city = some k) (hne : k ≠ "")
    (hf : p.fcStatus k ≠ 200) :
    cityResult p days city = ⟨city, .entries []⟩ ∧
    formatCity ⟨city, .entries []⟩ =
      "Прогноз погоды для " ++ city ++ ":\n" ++ "\n" := by
  constructor
  · simp [cityResult, hk, hne, truncatedForecast, fetch_weather_forecast, hf]
  · show _ ++ String.join [] ++ _ = _
    rw [show String.join [] = "" from rfl, String.append_empty]

theorem fetch_failure_empty_entries_witness :
    cityResult fcFailProvider 3 "Тверь" = ⟨"Тверь", .entries []⟩ :=
  (fetch_failure_empty_entries fcFailProvider "Тверь" "100500" 3 (by decide)
    (by decide) (by decide)).1

/-- C9: a forecast-length choice in the final state sets `days` to 3 or 5,
builds the route, runs the aggregator, and — formatted report or generic
failure notice — leaves the session cleared back to the idle state. -/
theorem select_resets_session (p : Provider) (ok : Bool) (s : Session)
    (d a b : String) (ha : s.start_city = some a)
    (hb : s.end_city = some b) (hd : d = "3_days" ∨ d = "5_days") :
    ∃ out, forecast_days_selected p ok s d = some out ∧
      out.session = Session.init ∧
      (out.days = 3 ∨ out.days = 5) ∧
      out.days = (if d = "3_days" then 3 else 5) ∧
      out.cities = [a] ++ s.midpoints.getD [] ++ [b] ∧
      out.reply = (if ok then
        format_forecast (generate_forecast p out.cities out.days)
      else errReply) := by
  simp only [forecast_days_selected, ha, hb]
  refine ⟨_, rfl, rfl, ?_, rfl, rfl, rfl⟩
  rcases hd with rfl | rfl
  · left; rfl
  · right; rfl

theorem select_resets_session_witness :
    ∃ out,
      forecast_days_selected fiveDayProvider true
          ⟨.choose_forecast, some "Москва", some "Париж", some [], none⟩
          "5_days" = some out ∧
      out.session = Session.init ∧ out.days = 5 := by
  obtain ⟨out, h1, h2, _, h4, _, _⟩ :=
    select_resets_session fiveDayProvider true
      ⟨.choose_forecast, some "Москва", some "Париж", some [], none⟩
      "5_days" "Москва" "Париж" rfl rfl (Or.inr rfl)
  refine ⟨out, h1, h2, ?_⟩
  rw [h4]
  decide

lemma cityResult_location (p : Provider) (days : Nat) (c : String) :
    (cityResult p days c).location = c := by
  rcases hk : fetch_location_key p c with _ | k
  · simp [cityResult, hk]
  · by_cases h : k = "" <;> simp [cityResult, hk, h]

/-- C10: the aggregator output is as long as the input list and carries
each input city name verbatim as its `location`, in order, in the success
and the no-data case alike. -/
theorem output_matches_input_cities (p : Provider) (cities : List String)
    (days : Nat) :
    (generate_forecast p cities days).length = cities.length ∧
    (generate_forecast p cities days).map CityForecast.location = cities := by
  refine ⟨by simp [generate_forecast], ?_⟩
  induction cities with
  | nil => rfl
  | cons c cs ih => simpa [generate_forecast, cityResult_location] using ih

end WeatherBot
